import Mathlib

/-!
Shallow embedding of `src/presentation/build_presentation.py`: a one-shot
script that builds a slide deck from a static syndrome dataset, resolving an
illustration per record (direct URL, then Wikipedia page-image lookup, then
none) and accumulating a reference list.

Network and filesystem effects are modelled by an explicit environment `Env`:
the outcome of an HTTP image fetch (including a write of the bytes to the
destination path), the parsed response of the Wikipedia page-image API, and
the file-existence check made by the slide builder.
-/

namespace BuildPres

/-- Python truthiness of an optional string: `None` and `""` are falsy. -/
def truthyOpt : Option String → Bool
  | none => false
  | some s => decide (s ≠ "")

/-- One record of the static `syndromes` dataset. -/
structure Syndrome where
  name : String
  description : String
  anesthesia : List String
  image_url : Option String
  image_caption : String
deriving DecidableEq, Repr

/-- Outcome of one `requests.get` of an image plus the write of its bytes to
the destination path (`download_image`'s try-block): success, an HTTP-level
failure (connection error, timeout, non-success status), or an `OSError`
raised while opening/writing the local file. -/
inductive FetchOutcome where
  | ok
  | httpError
  | writeError
deriving DecidableEq, Repr

/-- One page object of the parsed Wikipedia API response: the optional
`thumbnail.source` URL and the optional canonical `title`. -/
structure WikiPage where
  thumbnail : Option String
  title : Option String
deriving DecidableEq, Repr

/-- Parsed result of the Wikipedia page-image API call: an exception anywhere
in the try-block (transport error, bad status, malformed body), or the list
of page objects in iteration order. -/
inductive ApiResult where
  | failure
  | pages (ps : List WikiPage)
deriving DecidableEq, Repr

/-- The external world of one run. -/
structure Env where
  fetch : String → String → FetchOutcome
  wikiApi : String → ApiResult
  fileExists : String → Bool

def OUTPUT_PPTX : String := "/workspace/presentation/Craniofacial_Syndromes_Anesthesia.pptx"

def IMAGES_DIR : String := "/workspace/presentation/images"

/-- `download_image(url, dest_path)`: returns the destination path on success,
`None` on any caught exception. -/
def download_image (env : Env) (url : String) (dest_path : String) : Option String :=
  match env.fetch url dest_path with
  | .ok => some dest_path
  | .httpError => none
  | .writeError => none

/-- The try-block of `download_image` with the exception flow explicit:
`.error` is an exception raised inside the block. -/
def download_image_body (env : Env) (url : String) (dest_path : String) :
    Except String String :=
  match env.fetch url dest_path with
  | .ok => .ok dest_path
  | .httpError => .error ("Failed to download " ++ url)
  | .writeError => .error ("Failed writing " ++ dest_path)

/-- `download_image` with exception propagation visible at the call boundary:
a result of `.error` would mean an exception escapes the function. The
source's `except Exception` handler turns every exception raised in the body
into a logged `None`. -/
def download_imageE (env : Env) (url : String) (dest_path : String) :
    Except String (Option String) :=
  match download_image_body env url dest_path with
  | .ok p => .ok (some p)
  | .error _ => .ok none

/-- Hex digit as `"%02X"` uses it (upper case). -/
def hexChar (n : Nat) : Char :=
  if n < 10 then Char.ofNat (48 + n) else Char.ofNat (55 + n)

/-- UTF-8 byte sequence of one character. -/
def utf8Bytes (c : Char) : List Nat :=
  let n := c.toNat
  if n < 128 then [n]
  else if n < 2048 then [192 + n / 64, 128 + n % 64]
  else if n < 65536 then [224 + n / 4096, 128 + n / 64 % 64, 128 + n % 64]
  else [240 + n / 262144, 128 + n / 4096 % 64, 128 + n / 64 % 64, 128 + n % 64]

/-- Bytes `urllib.parse.quote` leaves unescaped with its default
`safe="/"`: ASCII letters, digits, `_.-~` and `/`. -/
def quoteSafe (n : Nat) : Bool :=
  (65 ≤ n && n ≤ 90) || (97 ≤ n && n ≤ 122) || (48 ≤ n && n ≤ 57) ||
    n == 95 || n == 46 || n == 45 || n == 126 || n == 47

def quoteByte (n : Nat) : String :=
  if quoteSafe n then String.singleton (Char.ofNat n)
  else String.mk ['%', hexChar (n / 16), hexChar (n % 16)]

/-- `urllib.parse.quote(s)` with the default safe set. -/
def quote (s : String) : String :=
  String.join (((s.data.map utf8Bytes).flatten).map quoteByte)

/-- Python `str.lower()`, restricted to the ASCII case mapping the dataset
uses. -/
def pyLower (s : String) : String :=
  ⟨s.data.map Char.toLower⟩

/-- Python `str.replace(a, b)` for single-character pattern and replacement,
embedded as a character map. -/
def pyReplaceChar (a b : Char) (s : String) : String :=
  ⟨s.data.map (fun c => if c = a then b else c)⟩

/-- The page URL constructed by `fetch_wikipedia_thumbnail`:
`f"https://en.wikipedia.org/wiki/{urllib.parse.quote(title.replace(' ', '_'))}"`. -/
def wikiPageUrl (title : String) : String :=
  "https://en.wikipedia.org/wiki/" ++ quote (pyReplaceChar ' ' '_' title)

/-- The `for page_id, page in pages.items()` loop: the first page carrying a
`thumbnail` yields `(thumb, page_url)`; otherwise `(None, None)`. -/
def findThumbnail (page_title : String) : List WikiPage → Option String × Option String
  | [] => (none, none)
  | p :: rest =>
    match p.thumbnail with
    | some thumb => (some thumb, some (wikiPageUrl (p.title.getD page_title)))
    | none => findThumbnail page_title rest

/-- The try-block of `fetch_wikipedia_thumbnail` with the exception flow
explicit: `.error` is an exception raised inside the block. -/
def fetch_wikipedia_thumbnail_body (env : Env) (page_title : String) :
    Except String (Option String × Option String) :=
  match env.wikiApi page_title with
  | .failure => .error ("Wikipedia API failed for " ++ page_title)
  | .pages ps => .ok (findThumbnail page_title ps)

/-- `fetch_wikipedia_thumbnail(page_title)`: `(thumb_url, page_url)` or
`(None, None)`. -/
def fetch_wikipedia_thumbnail (env : Env) (page_title : String) :
    Option String × Option String :=
  match env.wikiApi page_title with
  | .failure => (none, none)
  | .pages ps => findThumbnail page_title ps

/-- `fetch_wikipedia_thumbnail` with exception propagation visible: a result
of `.error` would mean an exception escapes the function. The source's
`except Exception` handler turns every exception raised in the body into a
logged `(None, None)`. -/
def fetch_wikipedia_thumbnailE (env : Env) (page_title : String) :
    Except String (Option String × Option String) :=
  match fetch_wikipedia_thumbnail_body env page_title with
  | .ok v => .ok v
  | .error _ => .ok (none, none)

/-- One paragraph placed in a text frame: its text, font size in points, and
indent level. -/
structure Paragraph where
  text : String
  size : Nat
  level : Nat
deriving DecidableEq, Repr

/-- The picture plus caption region `add_syndrome_slide` places when an image
is available. -/
structure ImageRegion where
  path : String
  caption : String
  captionSize : Nat
deriving DecidableEq, Repr

/-- A slide of the deck, abstractly: the layout-0 title slide, or a slide with
a title, a list of paragraphs and an optional image region. -/
inductive Slide where
  | titleSlide (title subtitle : String)
  | contentSlide (title : String) (paragraphs : List Paragraph) (image : Option ImageRegion)
deriving DecidableEq, Repr

/-- Title text of a slide. -/
def Slide.titleOf : Slide → String
  | .titleSlide t _ => t
  | .contentSlide t _ _ => t

/-- Paragraphs of a slide's main text frame. -/
def Slide.parasOf : Slide → List Paragraph
  | .titleSlide _ _ => []
  | .contentSlide _ ps _ => ps

/-- Image region of a slide, when one was placed. -/
def Slide.imageOf : Slide → Option ImageRegion
  | .titleSlide _ _ => none
  | .contentSlide _ _ img => img

/-- `add_title_slide(prs, title, subtitle)`. -/
def add_title_slide (title subtitle : String) : Slide :=
  .titleSlide title subtitle

/-- `add_syndrome_slide(prs, item, image_path)`: title is the record name; the
text frame holds the description then one `"- "`-prefixed bullet per
anesthesia point at `Pt(18)`; the image region is added only when
`image_path and os.path.exists(image_path)`. -/
def add_syndrome_slide (env : Env) (item : Syndrome) (image_path : Option String) : Slide :=
  let paras : List Paragraph :=
    { text := item.description, size := 18, level := 0 } ::
      item.anesthesia.map (fun point => { text := "- " ++ point, size := 18, level := 1 })
  let image : Option ImageRegion :=
    if truthyOpt image_path && env.fileExists (image_path.getD "") then
      some { path := image_path.getD "", caption := item.image_caption, captionSize := 10 }
    else none
  .contentSlide item.name paras image

/-- `add_references_slide(prs, refs)`: title `"References"`, one `Pt(12)`
level-0 paragraph per entry, in order. -/
def add_references_slide (refs : List String) : Slide :=
  .contentSlide "References" (refs.map (fun ref => { text := ref, size := 12, level := 0 })) none

/-- The static `syndromes` dataset, transcribed record by record. -/
def syndromes : List Syndrome := [
  { name := "Apert Syndrome",
    description := "Craniosynostosis with turribrachycephaly, midface hypoplasia, syndactyly; possible cleft palate.",
    anesthesia := [
      "Anticipate difficult mask/intubation (midface hypoplasia, choanal atresia)",
      "Screen for CHD; manage ICP if present",
      "Eye protection for proptosis; careful positioning"],
    image_url := none,
    image_caption := "Apert syndrome: syndactyly (Wikimedia Commons)" },
  { name := "Crouzon Syndrome",
    description := "Craniosynostosis, midface hypoplasia, beaked nose, proptosis; no limb anomalies.",
    anesthesia := [
      "Potential difficult airway; consider fiberoptic",
      "Monitor for increased ICP",
      "Eye protection due to proptosis"],
    image_url := none,
    image_caption := "Crouzon syndrome (Wikimedia Commons)" },
  { name := "Pfeiffer Syndrome",
    description := "Craniosynostosis with midface hypoplasia; broad, medially deviated thumbs/toes.",
    anesthesia := [
      "Airway obstruction risk; prepare for difficult intubation",
      "Assess for CHD and increased ICP",
      "Careful positioning and eye protection"],
    image_url := none,
    image_caption := "Pfeiffer syndrome (Wikimedia Commons)" },
  { name := "Saethre-Chotzen Syndrome",
    description := "Craniosynostosis, facial asymmetry, ptosis, mild syndactyly.",
    anesthesia := [
      "Airway usually manageable; assess individually",
      "Monitor for ICP and hearing issues",
      "IV access may be challenging with limb anomalies"],
    image_url := none,
    image_caption := "Saethre-Chotzen syndrome (Wikimedia Commons)" },
  { name := "Carpenter Syndrome",
    description := "Craniosynostosis, syndactyly/polydactyly, obesity; developmental delay.",
    anesthesia := [
      "Difficult ventilation/intubation (midface hypoplasia, obesity)",
      "Cardiac defects common; evaluate preop",
      "Positioning challenges due to habitus and limbs"],
    image_url := none,
    image_caption := "Carpenter syndrome (Wikimedia Commons)" },
  { name := "Muenke Syndrome",
    description := "Coronal craniosynostosis, brachycephaly, midface hypoplasia, hearing loss.",
    anesthesia := [
      "Prepare for potential difficult airway",
      "Assess hearing/communication needs",
      "Monitor for signs of ICP"],
    image_url := none,
    image_caption := "Muenke syndrome (Wikimedia Commons)" },
  { name := "Treacher Collins Syndrome",
    description := "Mandibulofacial dysostosis: mandibular/malar hypoplasia, downward palpebral fissures, ear anomalies; cleft palate common.",
    anesthesia := [
      "Very difficult airway; fiberoptic or video techniques",
      "Consider postoperative airway obstruction; extended monitoring",
      "Address hearing impairment communication"],
    image_url := none,
    image_caption := "Treacher Collins syndrome (Wikimedia Commons)" },
  { name := "Pierre Robin Sequence",
    description := "Triad: micrognathia, glossoptosis, cleft palate; significant airway obstruction.",
    anesthesia := [
      "Maintain spontaneous ventilation until airway secured",
      "Prepare for difficult intubation; alternative airways",
      "Postop monitoring for obstruction"],
    image_url := none,
    image_caption := "Pierre Robin sequence (Wikimedia Commons)" },
  { name := "Hemifacial Microsomia / Goldenhar",
    description := "Unilateral facial underdevelopment; ear anomalies; vertebral +/- cardiac defects.",
    anesthesia := [
      "Difficult intubation due to asymmetry/mandibular hypoplasia",
      "Evaluate cardiac/vertebral anomalies",
      "Careful positioning and padding"],
    image_url := none,
    image_caption := "Hemifacial microsomia (Wikimedia Commons)" },
  { name := "Freeman-Sheldon Syndrome",
    description := "Whistling face: microstomia, pursed lips; limb contractures; scoliosis.",
    anesthesia := [
      "Extremely difficult airway; microstomia",
      "Positioning challenges; consider MH risk per institutional protocol",
      "Plan postoperative respiratory support"],
    image_url := none,
    image_caption := "Freeman-Sheldon syndrome (Wikimedia Commons)" }]

/-- The `fallback_titles` dict of `main` (values carry en dashes where the
source does). -/
def fallback_titles : List (String × String) := [
  ("Apert Syndrome", "Apert syndrome"),
  ("Crouzon Syndrome", "Crouzon syndrome"),
  ("Pfeiffer Syndrome", "Pfeiffer syndrome"),
  ("Saethre-Chotzen Syndrome", "Saethre–Chotzen syndrome"),
  ("Carpenter Syndrome", "Carpenter syndrome"),
  ("Muenke Syndrome", "Muenke syndrome"),
  ("Treacher Collins Syndrome", "Treacher Collins syndrome"),
  ("Pierre Robin Sequence", "Pierre Robin sequence"),
  ("Hemifacial Microsomia / Goldenhar", "Hemifacial microsomia"),
  ("Freeman-Sheldon Syndrome", "Freeman–Sheldon syndrome")]

/-- `item["name"].lower().replace(" ", "_").replace("/", "-") + ".jpg"`. -/
def filenameFor (name : String) : String :=
  pyReplaceChar '/' '-' (pyReplaceChar ' ' '_' (pyLower name)) ++ ".jpg"

/-- `os.path.join(IMAGES_DIR, filename)`. -/
def dest_pathFor (name : String) : String :=
  IMAGES_DIR ++ "/" ++ filenameFor name

/-- Python `a or b` on an optional string and a string. -/
def pyOrStr : Option String → String → String
  | some s, t => if s ≠ "" then s else t
  | none, t => t

/-- `title = fallback_titles.get(item["name"], item["name"])`. -/
def usedTitle (item : Syndrome) : String :=
  (fallback_titles.lookup item.name).getD item.name

/-- The image-resolution part of `main`'s loop body (lines 261-276): the
direct-URL attempt, then the Wikipedia fallback, yielding
`(img_path, img_url_used)`. -/
def resolveImage (env : Env) (item : Syndrome) : Option String × Option String :=
  let dest_path := dest_pathFor item.name
  let step1 : Option String × Option String :=
    if truthyOpt item.image_url then
      let p := download_image env (item.image_url.getD "") dest_path
      (p, if truthyOpt p then item.image_url else none)
    else (none, none)
  if truthyOpt step1.1 then step1
  else
    let tp := fetch_wikipedia_thumbnail env (usedTitle item)
    match tp.1 with
    | some thumb =>
      if thumb ≠ "" then
        (download_image env thumb dest_path, some (pyOrStr tp.2 thumb))
      else step1
    | none => step1

/-- `f"Image: {item['name']} — {img_url_used}"`. -/
def refEntry (name url : String) : String :=
  "Image: " ++ name ++ " — " ++ url

/-- The reference entry `main`'s loop appends for a record, when
`img_path and img_url_used` holds. -/
def refFor (env : Env) (item : Syndrome) : Option String :=
  if truthyOpt (resolveImage env item).1 && truthyOpt (resolveImage env item).2 then
    some (refEntry item.name ((resolveImage env item).2.getD ""))
  else none

/-- The deck and reference list `main` accumulates. -/
structure RunState where
  slides : List Slide
  refs : List String
deriving DecidableEq, Repr

/-- One iteration of `main`'s `for item in syndromes` loop: resolve the image,
append the reference entry when both the path and the locator are truthy, and
append the record's slide. -/
def loopBody (env : Env) (st : RunState) (item : Syndrome) : RunState :=
  let r := resolveImage env item
  let refs :=
    if truthyOpt r.1 && truthyOpt r.2 then st.refs ++ [refEntry item.name (r.2.getD "")]
    else st.refs
  { slides := st.slides ++ [add_syndrome_slide env item r.1], refs := refs }

/-- The two fixed strings `refs.extend([...])` appends after the loop. -/
def general_refs : List String :=
  ["General references: IntechOpen, Medscape, NCBI Bookshelf, ClinicalGate, Aneskey",
   "Always verify local protocols and latest guidelines"]

def deck_title : String := "Pediatric Craniofacial Syndromes"

def deck_subtitle : String := "Key types, features, and anesthesia considerations"

/-- `main`, parameterized by the record list it iterates: title slide, the
per-record loop, the two fixed trailing reference strings, the references
slide. -/
def runDeck (env : Env) (records : List Syndrome) : RunState :=
  let st0 : RunState := { slides := [add_title_slide deck_title deck_subtitle], refs := [] }
  let st := records.foldl (loopBody env) st0
  { slides := st.slides ++ [add_references_slide (st.refs ++ general_refs)],
    refs := st.refs ++ general_refs }

/-- `main()` over the shipped dataset. -/
def mainRun (env : Env) : RunState :=
  runDeck env syndromes

/-!
Basic facts about the resolver's building blocks.
-/

theorem download_image_eq_some {env : Env} {url dest p : String}
    (h : download_image env url dest = some p) : p = dest := by
  unfold download_image at h
  cases hf : env.fetch url dest <;> rw [hf] at h <;> simp_all

theorem dest_pathFor_ne_empty (name : String) : dest_pathFor name ≠ "" := by
  intro h
  have h1 : (dest_pathFor name).length = 0 := by rw [h]; rfl
  have h2 : (IMAGES_DIR ++ "/").length = 31 := by decide
  rw [dest_pathFor, String.length_append, h2] at h1
  omega

theorem wikiPageUrl_ne_empty (title : String) : wikiPageUrl title ≠ "" := by
  intro h
  have h1 : (wikiPageUrl title).length = 0 := by rw [h]; rfl
  have h2 : ("https://en.wikipedia.org/wiki/" : String).length = 30 := rfl
  rw [wikiPageUrl, String.length_append, h2] at h1
  omega

theorem pyOrStr_ne_empty (o : Option String) {t : String} (ht : t ≠ "") :
    pyOrStr o t ≠ "" := by
  cases o with
  | none => exact ht
  | some s =>
    unfold pyOrStr
    by_cases hs : s = "" <;> simp [hs, ht]

theorem truthyOpt_some_iff {s : String} : truthyOpt (some s) = true ↔ s ≠ "" := by
  simp [truthyOpt]

/-- When the page loop finds a thumbnail it returns it together with a
constructed page URL; otherwise it returns `(none, none)`. -/
theorem findThumbnail_shape (t : String) (ps : List WikiPage) :
    (∃ thumb T, findThumbnail t ps = (some thumb, some (wikiPageUrl T))) ∨
      findThumbnail t ps = (none, none) := by
  induction ps with
  | nil => exact Or.inr rfl
  | cons p rest ih =>
    cases hp : p.thumbnail with
    | some thumb =>
      exact Or.inl ⟨thumb, p.title.getD t, by simp [findThumbnail, hp]⟩
    | none =>
      simpa [findThumbnail, hp] using ih

theorem fetch_eq_failure {env : Env} {t : String} (hw : env.wikiApi t = .failure) :
    fetch_wikipedia_thumbnail env t = (none, none) := by
  unfold fetch_wikipedia_thumbnail; rw [hw]

theorem fetch_eq_pages {env : Env} {t : String} {ps : List WikiPage}
    (hw : env.wikiApi t = .pages ps) :
    fetch_wikipedia_thumbnail env t = findThumbnail t ps := by
  unfold fetch_wikipedia_thumbnail; rw [hw]

theorem fetch_snd_of_fst_some {env : Env} {t thumb : String}
    (h : (fetch_wikipedia_thumbnail env t).1 = some thumb) :
    ∃ T, (fetch_wikipedia_thumbnail env t).2 = some (wikiPageUrl T) := by
  cases hw : env.wikiApi t with
  | failure => rw [fetch_eq_failure hw] at h; simp at h
  | pages ps =>
    rw [fetch_eq_pages hw] at h ⊢
    rcases findThumbnail_shape t ps with ⟨th, T, hft⟩ | hft
    · exact ⟨T, by rw [hft]⟩
    · rw [hft] at h; simp at h

/-- The first page carrying a thumbnail determines the loop's result. -/
theorem findThumbnail_append {t : String} {pre rest : List WikiPage} {pg : WikiPage}
    {thumb : String} (hpre : ∀ q ∈ pre, q.thumbnail = none)
    (hpg : pg.thumbnail = some thumb) :
    findThumbnail t (pre ++ pg :: rest) =
      (some thumb, some (wikiPageUrl (pg.title.getD t))) := by
  induction pre with
  | nil => simp [findThumbnail, hpg]
  | cons q pre ih =>
    have hq : q.thumbnail = none := hpre q (by simp)
    simp only [List.cons_append, findThumbnail, hq]
    exact ih (fun r hr => hpre r (by simp [hr]))

/-- `resolveImage` restated without the intermediate `let`-bound state, by
case analysis on the source's control flow. -/
theorem resolveImage_eq (env : Env) (item : Syndrome) :
    resolveImage env item =
      if truthyOpt item.image_url &&
          truthyOpt (download_image env (item.image_url.getD "") (dest_pathFor item.name)) then
        (download_image env (item.image_url.getD "") (dest_pathFor item.name), item.image_url)
      else
        match (fetch_wikipedia_thumbnail env (usedTitle item)).1 with
        | some thumb =>
          if thumb ≠ "" then
            (download_image env thumb (dest_pathFor item.name),
             some (pyOrStr (fetch_wikipedia_thumbnail env (usedTitle item)).2 thumb))
          else (none, none)
        | none => (none, none) := by
  unfold resolveImage
  cases h : truthyOpt item.image_url with
  | true =>
    cases hp : truthyOpt (download_image env (item.image_url.getD "") (dest_pathFor item.name)) with
    | true => simp [h, hp]
    | false =>
      have hpnone : download_image env (item.image_url.getD "") (dest_pathFor item.name) = none := by
        cases hd : download_image env (item.image_url.getD "") (dest_pathFor item.name) with
        | none => rfl
        | some p =>
          have hpd := download_image_eq_some hd
          subst hpd
          rw [hd] at hp
          rw [truthyOpt_some_iff.mpr (dest_pathFor_ne_empty item.name)] at hp
          cases hp
      simp [h, hpnone, truthyOpt]
  | false => simp [h, truthyOpt]

/-- The direct-success branch of the resolver. -/
theorem resolveImage_eq_direct {env : Env} {item : Syndrome}
    (hc : (truthyOpt item.image_url &&
      truthyOpt (download_image env (item.image_url.getD "") (dest_pathFor item.name))) = true) :
    resolveImage env item =
      (download_image env (item.image_url.getD "") (dest_pathFor item.name), item.image_url) := by
  rw [resolveImage_eq, if_pos hc]

/-- The fallback branch of the resolver when the lookup yields a thumbnail. -/
theorem resolveImage_eq_fb_some {env : Env} {item : Syndrome} {thumb : String}
    (hc : ¬(truthyOpt item.image_url &&
      truthyOpt (download_image env (item.image_url.getD "") (dest_pathFor item.name))) = true)
    (htp : (fetch_wikipedia_thumbnail env (usedTitle item)).1 = some thumb) :
    resolveImage env item =
      if thumb ≠ "" then
        (download_image env thumb (dest_pathFor item.name),
         some (pyOrStr (fetch_wikipedia_thumbnail env (usedTitle item)).2 thumb))
      else (none, none) := by
  rw [resolveImage_eq, if_neg hc, htp]

/-- The fallback branch of the resolver when the lookup yields nothing. -/
theorem resolveImage_eq_fb_none {env : Env} {item : Syndrome}
    (hc : ¬(truthyOpt item.image_url &&
      truthyOpt (download_image env (item.image_url.getD "") (dest_pathFor item.name))) = true)
    (htp : (fetch_wikipedia_thumbnail env (usedTitle item)).1 = none) :
    resolveImage env item = (none, none) := by
  rw [resolveImage_eq, if_neg hc, htp]

/-- A resolved local path is always the record's destination path, and a
resolved record always carries a truthy source locator. -/
theorem resolveImage_fst_some {env : Env} {item : Syndrome} {p : String}
    (h : (resolveImage env item).1 = some p) :
    p = dest_pathFor item.name ∧ truthyOpt (resolveImage env item).2 = true := by
  by_cases hc : (truthyOpt item.image_url &&
      truthyOpt (download_image env (item.image_url.getD "") (dest_pathFor item.name))) = true
  · rw [resolveImage_eq_direct hc] at h ⊢
    refine ⟨download_image_eq_some h, ?_⟩
    have h1 : truthyOpt item.image_url = true := by
      cases hx : truthyOpt item.image_url
      · rw [hx] at hc; simp at hc
      · rfl
    exact h1
  · cases htp : (fetch_wikipedia_thumbnail env (usedTitle item)).1 with
    | none => rw [resolveImage_eq_fb_none hc htp] at h; simp at h
    | some thumb =>
      rw [resolveImage_eq_fb_some hc htp] at h ⊢
      by_cases hth : thumb = ""
      · rw [if_neg (not_not_intro hth)] at h; simp at h
      · rw [if_pos hth] at h ⊢
        exact ⟨download_image_eq_some h,
          truthyOpt_some_iff.mpr (pyOrStr_ne_empty _ hth)⟩

/-- A reference entry is produced exactly when a local image path was
resolved. -/
theorem refFor_isSome (env : Env) (item : Syndrome) :
    (refFor env item).isSome = (resolveImage env item).1.isSome := by
  unfold refFor
  cases h : (resolveImage env item).1 with
  | none => simp [h, truthyOpt]
  | some p =>
    obtain ⟨hp, hsnd⟩ := resolveImage_fst_some h
    subst hp
    simp [h, hsnd, truthyOpt_some_iff.mpr (dest_pathFor_ne_empty item.name)]

theorem loopBody_eq (env : Env) (st : RunState) (item : Syndrome) :
    loopBody env st item =
      { slides := st.slides ++ [add_syndrome_slide env item (resolveImage env item).1],
        refs := st.refs ++ (refFor env item).toList } := by
  unfold loopBody refFor
  cases h : (truthyOpt (resolveImage env item).1 && truthyOpt (resolveImage env item).2) with
  | true => simp [h]
  | false => simp [h]

theorem foldl_loopBody (env : Env) (records : List Syndrome) (st : RunState) :
    records.foldl (loopBody env) st =
      { slides := st.slides ++
          records.map (fun item => add_syndrome_slide env item (resolveImage env item).1),
        refs := st.refs ++ records.filterMap (refFor env) } := by
  induction records generalizing st with
  | nil => simp
  | cons a l ih =>
    rw [List.foldl_cons, loopBody_eq, ih]
    cases h : refFor env a with
    | none => simp [List.filterMap_cons, h]
    | some e => simp [List.filterMap_cons, h]

theorem runDeck_slides (env : Env) (records : List Syndrome) :
    (runDeck env records).slides =
      add_title_slide deck_title deck_subtitle ::
        (records.map (fun item => add_syndrome_slide env item (resolveImage env item).1) ++
          [add_references_slide (records.filterMap (refFor env) ++ general_refs)]) := by
  simp only [runDeck]
  rw [foldl_loopBody]
  simp

theorem runDeck_refs (env : Env) (records : List Syndrome) :
    (runDeck env records).refs = records.filterMap (refFor env) ++ general_refs := by
  simp only [runDeck]
  rw [foldl_loopBody]
  simp

theorem length_filterMap_refFor (env : Env) (l : List Syndrome) :
    (l.filterMap (refFor env)).length =
      l.countP (fun item => (resolveImage env item).1.isSome) := by
  induction l with
  | nil => simp
  | cons a t ih =>
    rw [List.filterMap_cons, List.countP_cons]
    cases h : refFor env a with
    | none =>
      have h2 : (resolveImage env a).1.isSome = false := by
        rw [← refFor_isSome, h]; rfl
      simp [h2, ih]
    | some e =>
      have h2 : (resolveImage env a).1.isSome = true := by
        rw [← refFor_isSome, h]; rfl
      simp [h2, ih]

/-- Whenever the direct step did not succeed (absent or empty locator, or a
failed direct download), the resolved source locator, when present, is
always a constructed Wikipedia page URL. -/
theorem resolveImage_snd_shape {env : Env} {item : Syndrome}
    (hc : ¬(truthyOpt item.image_url &&
      truthyOpt (download_image env (item.image_url.getD "") (dest_pathFor item.name))) = true)
    {u : String}
    (hu : (resolveImage env item).2 = some u) : ∃ T, u = wikiPageUrl T := by
  cases htp : (fetch_wikipedia_thumbnail env (usedTitle item)).1 with
  | none => rw [resolveImage_eq_fb_none hc htp] at hu; simp at hu
  | some thumb =>
    rw [resolveImage_eq_fb_some hc htp] at hu
    by_cases hth : thumb = ""
    · rw [if_neg (not_not_intro hth)] at hu; simp at hu
    · rw [if_pos hth] at hu
      simp only [Option.some.injEq] at hu
      obtain ⟨T, hT⟩ := fetch_snd_of_fst_some htp
      rw [hT] at hu
      refine ⟨T, ?_⟩
      rw [← hu]
      show (if wikiPageUrl T ≠ "" then wikiPageUrl T else thumb) = wikiPageUrl T
      rw [if_pos (wikiPageUrl_ne_empty T)]

/-- The direct step is not taken as successful when the record has no truthy
direct locator or its direct download failed. -/
theorem directStep_not_taken {env : Env} {item : Syndrome}
    (h0 : truthyOpt item.image_url = false ∨
      download_image env (item.image_url.getD "") (dest_pathFor item.name) = none) :
    ¬(truthyOpt item.image_url &&
      truthyOpt (download_image env (item.image_url.getD "") (dest_pathFor item.name))) = true := by
  rcases h0 with h0 | h0
  · rw [h0]; simp
  · rw [h0]; simp [truthyOpt]

/-- Successful direct fetch: the resolver returns the saved path and the
original direct URL, without consulting the Wikipedia environment. -/
theorem resolveImage_direct_ok {env : Env} {item : Syndrome} {u : String}
    (h1 : item.image_url = some u) (h2 : u ≠ "")
    (h3 : env.fetch u (dest_pathFor item.name) = FetchOutcome.ok) :
    resolveImage env item = (some (dest_pathFor item.name), some u) := by
  have hdl : download_image env (item.image_url.getD "") (dest_pathFor item.name) =
      some (dest_pathFor item.name) := by
    rw [h1]
    unfold download_image
    simp only [Option.getD_some]
    rw [h3]
  rw [resolveImage_eq, hdl, h1]
  have ht1 : truthyOpt (some u) = true := truthyOpt_some_iff.mpr h2
  have ht2 : truthyOpt (some (dest_pathFor item.name)) = true :=
    truthyOpt_some_iff.mpr (dest_pathFor_ne_empty item.name)
  rw [ht1, ht2]
  simp

/-!
Concrete environments and records used to instantiate the theorems.
-/

/-- Environment where every fetch succeeds and the lookup returns one page
with a thumbnail. -/
def envAllOk : Env :=
  { fetch := fun _ _ => .ok,
    wikiApi := fun _ => .pages
      [{ thumbnail := some "https://upload.wikimedia.org/a.jpg", title := some "Apert syndrome" }],
    fileExists := fun _ => true }

/-- Environment whose lookup service returns a page list without any
thumbnail. -/
def envNoThumb : Env :=
  { fetch := fun _ _ => .ok, wikiApi := fun _ => .pages [], fileExists := fun _ => true }

/-- Environment where every image write fails with a local file-system
error. -/
def envWriteErr : Env :=
  { fetch := fun _ _ => .writeError, wikiApi := fun _ => .failure, fileExists := fun _ => false }

/-- Environment whose lookup returns a canonical title containing an en
dash, as Wikipedia does for several of the shipped fallback titles. -/
def envDash : Env :=
  { fetch := fun _ _ => .ok,
    wikiApi := fun _ => .pages
      [{ thumbnail := some "https://upload.wikimedia.org/thumb.jpg",
         title := some "Saethre–Chotzen syndrome" }],
    fileExists := fun _ => true }

/-- Environment where direct fetches succeed but the lookup service always
fails. -/
def envWikiOff : Env :=
  { fetch := fun _ _ => .ok, wikiApi := fun _ => .failure, fileExists := fun _ => true }

/-- A record carrying a direct image locator (the shipped dataset has none,
so direct-fetch behaviour is exercised on this one). -/
def itemDirect : Syndrome :=
  { name := "Test Syndrome", description := "d", anesthesia := [],
    image_url := some "https://example.org/direct.jpg", image_caption := "c" }

/-!
The claims.
-/

/-- Claim C1: every run's deck is exactly one title slide, then exactly one
slide per record in dataset order (whatever the record's image resolution
did), then exactly one references slide, so the slide count is
`1 + records.length + 1`. -/
theorem claim_C1_deck_structure (env : Env) (records : List Syndrome) :
    (runDeck env records).slides =
      add_title_slide deck_title deck_subtitle ::
        (records.map (fun item => add_syndrome_slide env item (resolveImage env item).1) ++
          [add_references_slide (records.filterMap (refFor env) ++ general_refs)]) ∧
    (runDeck env records).slides.length = 1 + records.length + 1 := by
  refine ⟨runDeck_slides env records, ?_⟩
  rw [runDeck_slides]
  simp [List.length_append]
  omega

/-- Claim C2: a reference entry is produced for a record exactly when an
image was resolved for it; entries appear in record order, the list always
ends with the two fixed general-reference strings in fixed order, and its
length is the number of resolved records plus 2. -/
theorem claim_C2_reference_list (env : Env) (records : List Syndrome) :
    (runDeck env records).refs = records.filterMap (refFor env) ++ general_refs ∧
    (∀ item : Syndrome, (refFor env item).isSome = (resolveImage env item).1.isSome) ∧
    general_refs =
      ["General references: IntechOpen, Medscape, NCBI Bookshelf, ClinicalGate, Aneskey",
       "Always verify local protocols and latest guidelines"] ∧
    (runDeck env records).refs.length =
      records.countP (fun item => (resolveImage env item).1.isSome) + 2 := by
  refine ⟨runDeck_refs env records, refFor_isSome env, rfl, ?_⟩
  rw [runDeck_refs, List.length_append, length_filterMap_refFor]
  rfl

/-- Claim C3: a record carrying a direct image locator whose direct fetch
succeeds resolves to the saved path and the original direct URL; the
Wikipedia fallback is never consulted (the result is unchanged under any
environment agreeing on fetch outcomes), and the reference entry carries
the direct URL. -/
theorem claim_C3_direct_first (env env2 : Env) (item : Syndrome) (u : String)
    (h1 : item.image_url = some u) (h2 : u ≠ "")
    (h3 : env.fetch u (dest_pathFor item.name) = FetchOutcome.ok)
    (h4 : env2.fetch = env.fetch) :
    resolveImage env item = (some (dest_pathFor item.name), some u) ∧
    resolveImage env2 item = resolveImage env item ∧
    refFor env item = some (refEntry item.name u) := by
  have ha := resolveImage_direct_ok h1 h2 h3
  have hb := @resolveImage_direct_ok env2 item u h1 h2 (by rw [h4]; exact h3)
  refine ⟨ha, by rw [ha, hb], ?_⟩
  unfold refFor
  rw [ha]
  simp [truthyOpt_some_iff.mpr h2, truthyOpt_some_iff.mpr (dest_pathFor_ne_empty item.name)]

/-- Witness for claim C3 at a concrete record and environments. -/
theorem claim_C3_witness :
    resolveImage envWikiOff itemDirect =
      (some (dest_pathFor "Test Syndrome"), some "https://example.org/direct.jpg") ∧
    resolveImage envAllOk itemDirect = resolveImage envWikiOff itemDirect ∧
    refFor envWikiOff itemDirect =
      some (refEntry "Test Syndrome" "https://example.org/direct.jpg") :=
  claim_C3_direct_first envWikiOff envAllOk itemDirect "https://example.org/direct.jpg"
    rfl (by decide) rfl rfl

/-- Environment whose lookup returns a thumbnail but whose every download
fails: both resolution steps produce no image, yet the locator was already
assigned. -/
def envThumbFail : Env :=
  { fetch := fun _ _ => .httpError,
    wikiApi := fun _ => .pages
      [{ thumbnail := some "https://upload.wikimedia.org/x.jpg", title := some "Apert syndrome" }],
    fileExists := fun _ => false }

/-- Counterexample to claim C4 as stated: on the shipped Apert record
(absent direct locator) with a fallback whose thumbnail download fails,
both steps produce no image, yet the resolver's outcome is
`(none, page URL)` — the locator is assigned before the thumbnail download
is checked — not `(none, none)`. -/
theorem claim_C4_counterexample :
    (resolveImage envThumbFail (syndromes.get ⟨0, by decide⟩)).1 = none ∧
    resolveImage envThumbFail (syndromes.get ⟨0, by decide⟩) ≠ (none, none) ∧
    resolveImage envThumbFail (syndromes.get ⟨0, by decide⟩) =
      (none, some (wikiPageUrl "Apert syndrome")) := by
  refine ⟨by decide, by decide, by decide⟩

/-- Claim C4 (amended): for every record for which both resolution steps
fail to produce an image (the resolved local path is absent): if the
fallback lookup returned no thumbnail the outcome is `(none, none)`; if the
lookup returned a thumbnail whose download then failed, the locator
component instead holds the constructed page URL (assigned before the
download is checked). In every such case the record's slide is built with no
image region (hence no caption region) and no reference entry is added. -/
theorem claim_C4_both_steps_fail (env : Env) (item : Syndrome)
    (h : (resolveImage env item).1 = none) :
    ((fetch_wikipedia_thumbnail env (usedTitle item)).1 = none →
        resolveImage env item = (none, none)) ∧
    (∀ u : String, (resolveImage env item).2 = some u → ∃ T, u = wikiPageUrl T) ∧
    (add_syndrome_slide env item (resolveImage env item).1).imageOf = none ∧
    refFor env item = none := by
  have hc : ¬(truthyOpt item.image_url &&
      truthyOpt (download_image env (item.image_url.getD "") (dest_pathFor item.name))) = true := by
    intro hcc
    have hdir := resolveImage_eq_direct hcc
    have h2 : truthyOpt (download_image env (item.image_url.getD "") (dest_pathFor item.name)) =
        true := by
      cases hx : truthyOpt (download_image env (item.image_url.getD "") (dest_pathFor item.name))
      · rw [hx] at hcc; simp at hcc
      · rfl
    cases hd : download_image env (item.image_url.getD "") (dest_pathFor item.name) with
    | none => rw [hd] at h2; simp [truthyOpt] at h2
    | some p =>
      rw [hdir] at h
      simp [hd] at h
  refine ⟨?_, ?_, ?_, ?_⟩
  · intro htp
    exact resolveImage_eq_fb_none hc htp
  · intro u hu
    exact resolveImage_snd_shape hc hu
  · rw [h]
    simp [add_syndrome_slide, Slide.imageOf, truthyOpt]
  · unfold refFor
    rw [h]
    simp [truthyOpt]

/-- Witness for the amended claim C4: the shipped Apert record against a
lookup service returning no thumbnail. -/
theorem claim_C4_witness :
    ((fetch_wikipedia_thumbnail envNoThumb (usedTitle (syndromes.get ⟨0, by decide⟩))).1 = none →
        resolveImage envNoThumb (syndromes.get ⟨0, by decide⟩) = (none, none)) ∧
    (∀ u : String, (resolveImage envNoThumb (syndromes.get ⟨0, by decide⟩)).2 = some u →
        ∃ T, u = wikiPageUrl T) ∧
    (add_syndrome_slide envNoThumb (syndromes.get ⟨0, by decide⟩)
      (resolveImage envNoThumb (syndromes.get ⟨0, by decide⟩)).1).imageOf = none ∧
    refFor envNoThumb (syndromes.get ⟨0, by decide⟩) = none :=
  claim_C4_both_steps_fail envNoThumb (syndromes.get ⟨0, by decide⟩) (by decide)

/-- Claim C5: every failure inside the resolver functions is caught and
converted to a nothing-result — neither function ever propagates an error
past its boundary — and the run always completes the full deck, whatever the
environment does. -/
theorem claim_C5_failures_contained :
    (∀ (env : Env) (url dest_path : String),
        download_imageE env url dest_path = Except.ok (download_image env url dest_path)) ∧
    (∀ (env : Env) (page_title : String),
        fetch_wikipedia_thumbnailE env page_title =
          Except.ok (fetch_wikipedia_thumbnail env page_title)) ∧
    (∀ (env : Env) (records : List Syndrome),
        (runDeck env records).slides.length = records.length + 2) := by
  refine ⟨?_, ?_, ?_⟩
  · intro env url dest_path
    unfold download_imageE download_image_body download_image
    cases env.fetch url dest_path <;> rfl
  · intro env page_title
    unfold fetch_wikipedia_thumbnailE fetch_wikipedia_thumbnail_body fetch_wikipedia_thumbnail
    cases env.wikiApi page_title <;> rfl
  · intro env records
    rw [runDeck_slides]
    simp [List.length_append]

/-- Counterexample to claim C6 as stated: at an input whose local write
fails with a file-system error, the download step returns a caught `none`
result (`Except.ok none`), not a propagated fatal error. -/
theorem claim_C6_counterexample :
    envWriteErr.fetch "https://example.org/b.jpg" (dest_pathFor "Apert Syndrome") =
      FetchOutcome.writeError ∧
    download_imageE envWriteErr "https://example.org/b.jpg" (dest_pathFor "Apert Syndrome") =
      Except.ok none ∧
    download_image envWriteErr "https://example.org/b.jpg" (dest_pathFor "Apert Syndrome") =
      none :=
  ⟨rfl, rfl, rfl⟩

/-- Claim C6 (amended): a local file-system error while writing the
downloaded bytes is raised inside the download step's try-block, but the
broad exception handler catches it like any other failure and converts it to
a no-image `none` result; it does not propagate out of the step. -/
theorem claim_C6_write_error_caught (env : Env) (url dest_path : String)
    (h : env.fetch url dest_path = FetchOutcome.writeError) :
    download_image_body env url dest_path = Except.error ("Failed writing " ++ dest_path) ∧
    download_imageE env url dest_path = Except.ok none ∧
    download_image env url dest_path = none := by
  unfold download_imageE download_image_body download_image
  rw [h]
  exact ⟨rfl, rfl, rfl⟩

/-- Witness for the amended claim C6 at a concrete input. -/
theorem claim_C6_witness :
    download_image_body envWriteErr "https://example.org/a.jpg"
        "/workspace/presentation/images/a.jpg" =
      Except.error ("Failed writing " ++ "/workspace/presentation/images/a.jpg") ∧
    download_imageE envWriteErr "https://example.org/a.jpg"
        "/workspace/presentation/images/a.jpg" = Except.ok none ∧
    download_image envWriteErr "https://example.org/a.jpg"
        "/workspace/presentation/images/a.jpg" = none :=
  claim_C6_write_error_caught envWriteErr "https://example.org/a.jpg"
    "/workspace/presentation/images/a.jpg" rfl

/-- Page-URL construction as claim C7 words it, modelled from the spec's
sentence for comparison with the source's construction: the canonical title
with spaces replaced by underscores appended to the fixed prefix, with no
percent-encoding. -/
def claimedPageUrl (title : String) : String :=
  "https://en.wikipedia.org/wiki/" ++ pyReplaceChar ' ' '_' title

/-- Counterexample to claim C7 as stated: with the shipped Saethre-Chotzen
record and a lookup returning the canonical en-dash title, the recorded
locator is the percent-encoded page URL, which differs from the claim's
space-to-underscore construction. -/
theorem claim_C7_counterexample :
    (resolveImage envDash (syndromes.get ⟨3, by decide⟩)).2 =
      some (wikiPageUrl "Saethre–Chotzen syndrome") ∧
    (resolveImage envDash (syndromes.get ⟨3, by decide⟩)).2 ≠
      some (claimedPageUrl "Saethre–Chotzen syndrome") ∧
    wikiPageUrl "Saethre–Chotzen syndrome" =
      "https://en.wikipedia.org/wiki/Saethre%E2%80%93Chotzen_syndrome" ∧
    claimedPageUrl "Saethre–Chotzen syndrome" =
      "https://en.wikipedia.org/wiki/Saethre–Chotzen_syndrome" := by
  refine ⟨by decide, by decide, by decide, by decide⟩

/-- Claim C7 (amended): a record resolved via the fallback step — the direct
locator was absent, empty, or its direct fetch failed; the lookup returned a
thumbnail and a canonical page title; and the thumbnail download succeeded —
records as its reference locator the constructed page URL: the canonical
title with spaces replaced by underscores, percent-encoded, appended to the
fixed Wikipedia page-URL prefix — never the thumbnail URL or the failed
direct URL. -/
theorem claim_C7_fallback_locator (env : Env) (item : Syndrome)
    (pre rest : List WikiPage) (pg : WikiPage) (thumb T : String)
    (h0 : truthyOpt item.image_url = false ∨
      download_image env (item.image_url.getD "") (dest_pathFor item.name) = none)
    (h1 : env.wikiApi (usedTitle item) = ApiResult.pages (pre ++ pg :: rest))
    (h2 : ∀ q ∈ pre, q.thumbnail = none)
    (h3 : pg.thumbnail = some thumb)
    (h4 : pg.title = some T)
    (h5 : thumb ≠ "")
    (h6 : env.fetch thumb (dest_pathFor item.name) = FetchOutcome.ok) :
    resolveImage env item = (some (dest_pathFor item.name), some (wikiPageUrl T)) ∧
    refFor env item = some (refEntry item.name (wikiPageUrl T)) ∧
    wikiPageUrl T = "https://en.wikipedia.org/wiki/" ++ quote (pyReplaceChar ' ' '_' T) := by
  have hft := @findThumbnail_append (usedTitle item) pre rest pg thumb h2 h3
  rw [h4] at hft
  simp only [Option.getD_some] at hft
  have hfetch : fetch_wikipedia_thumbnail env (usedTitle item) =
      (some thumb, some (wikiPageUrl T)) := by
    rw [fetch_eq_pages h1]; exact hft
  have hc := directStep_not_taken h0
  have htp1 : (fetch_wikipedia_thumbnail env (usedTitle item)).1 = some thumb := by
    rw [hfetch]
  have hdl : download_image env thumb (dest_pathFor item.name) =
      some (dest_pathFor item.name) := by
    unfold download_image; rw [h6]
  have hr : resolveImage env item =
      (some (dest_pathFor item.name), some (wikiPageUrl T)) := by
    rw [resolveImage_eq_fb_some hc htp1, if_pos h5, hdl, hfetch]
    show (some (dest_pathFor item.name),
      some (if wikiPageUrl T ≠ "" then wikiPageUrl T else thumb)) = _
    rw [if_pos (wikiPageUrl_ne_empty T)]
  refine ⟨hr, ?_, rfl⟩
  unfold refFor
  rw [hr]
  simp [truthyOpt_some_iff.mpr (dest_pathFor_ne_empty item.name),
    truthyOpt_some_iff.mpr (wikiPageUrl_ne_empty T)]

/-- Environment where the direct URL's fetch fails (the spec's timeout
scenario) but the fallback lookup and thumbnail download succeed. -/
def envDirectFail : Env :=
  { fetch := fun url _ => if url == "https://example.org/direct.jpg" then .httpError else .ok,
    wikiApi := fun _ => .pages
      [{ thumbnail := some "https://upload.wikimedia.org/thumb.jpg",
         title := some "Saethre–Chotzen syndrome" }],
    fileExists := fun _ => true }

/-- Witness for the amended claim C7: a record whose direct fetch fails but
whose fallback succeeds records the constructed en-dash page URL, not the
failed direct URL. -/
theorem claim_C7_witness :
    resolveImage envDirectFail itemDirect =
      (some (dest_pathFor "Test Syndrome"),
       some (wikiPageUrl "Saethre–Chotzen syndrome")) ∧
    refFor envDirectFail itemDirect =
      some (refEntry "Test Syndrome" (wikiPageUrl "Saethre–Chotzen syndrome")) ∧
    wikiPageUrl "Saethre–Chotzen syndrome" =
      "https://en.wikipedia.org/wiki/" ++
        quote (pyReplaceChar ' ' '_' "Saethre–Chotzen syndrome") :=
  claim_C7_fallback_locator envDirectFail itemDirect [] []
    { thumbnail := some "https://upload.wikimedia.org/thumb.jpg",
      title := some "Saethre–Chotzen syndrome" }
    "https://upload.wikimedia.org/thumb.jpg" "Saethre–Chotzen syndrome"
    (Or.inr (by decide)) rfl (by decide) rfl rfl (by decide) (by decide)

/-- Claim C8: for every entry list, the references slide holds the title
"References" and exactly one paragraph per entry, in the supplied order, each
at the fixed smaller font size, with no extra paragraphs and no image. -/
theorem claim_C8_references_slide (entries : List String) :
    (add_references_slide entries).titleOf = "References" ∧
    (add_references_slide entries).parasOf.map Paragraph.text = entries ∧
    (add_references_slide entries).parasOf.length = entries.length ∧
    (∀ p ∈ (add_references_slide entries).parasOf, p.size = 12 ∧ p.level = 0) ∧
    (add_references_slide entries).imageOf = none := by
  refine ⟨rfl, ?_, ?_, ?_, rfl⟩
  · simp [add_references_slide, Slide.parasOf, Function.comp_def]
  · simp [add_references_slide, Slide.parasOf]
  · intro p hp
    simp only [add_references_slide, Slide.parasOf, List.mem_map] at hp
    obtain ⟨e, _, rfl⟩ := hp
    exact ⟨rfl, rfl⟩

/-- Claim C9: the local image filename derivation (lower-case,
spaces to underscores, slashes to hyphens, fixed extension) is injective over
the shipped dataset, including the record whose display name contains a
slash. -/
theorem claim_C9_filenames_injective :
    (syndromes.map (fun s => filenameFor s.name)).Nodup ∧
    filenameFor "Hemifacial Microsomia / Goldenhar" =
      "hemifacial_microsomia_-_goldenhar.jpg" ∧
    syndromes.map (fun s => filenameFor s.name) =
      ["apert_syndrome.jpg", "crouzon_syndrome.jpg", "pfeiffer_syndrome.jpg",
       "saethre-chotzen_syndrome.jpg", "carpenter_syndrome.jpg", "muenke_syndrome.jpg",
       "treacher_collins_syndrome.jpg", "pierre_robin_sequence.jpg",
       "hemifacial_microsomia_-_goldenhar.jpg", "freeman-sheldon_syndrome.jpg"] := by
  refine ⟨by decide, by decide, by decide⟩

/-- Claim C10: every shipped record has an absent direct locator and a
fallback-title override, so the direct-download branch is never entered and
the own-name default is never taken; consequently every per-record reference
locator produced in any run over this dataset is a constructed Wikipedia
page URL. -/
theorem claim_C10_dataset_fallback_only :
    (∀ s ∈ syndromes, s.image_url = none ∧ truthyOpt s.image_url = false ∧
        (fallback_titles.lookup s.name).isSome = true) ∧
    (∀ (env : Env), ∀ s ∈ syndromes, ∀ u : String,
        (resolveImage env s).2 = some u → ∃ T, u = wikiPageUrl T) ∧
    (∀ (env : Env), ∀ s ∈ syndromes, ∀ e : String,
        refFor env s = some e → ∃ T, e = refEntry s.name (wikiPageUrl T)) := by
  have hds : ∀ s ∈ syndromes, s.image_url = none ∧ truthyOpt s.image_url = false ∧
      (fallback_titles.lookup s.name).isSome = true := by decide
  refine ⟨hds, ?_, ?_⟩
  · intro env s hs u hu
    exact resolveImage_snd_shape (directStep_not_taken (Or.inl (hds s hs).2.1)) hu
  · intro env s hs e he
    unfold refFor at he
    by_cases hcond : (truthyOpt (resolveImage env s).1 &&
        truthyOpt (resolveImage env s).2) = true
    · rw [if_pos hcond] at he
      have h2 : truthyOpt (resolveImage env s).2 = true := by
        cases hx : truthyOpt (resolveImage env s).2
        · rw [hx] at hcond; simp at hcond
        · rfl
      cases hsnd : (resolveImage env s).2 with
      | none => rw [hsnd] at h2; simp [truthyOpt] at h2
      | some u =>
        obtain ⟨T, hT⟩ :=
          resolveImage_snd_shape (directStep_not_taken (Or.inl (hds s hs).2.1)) hsnd
        subst hT
        rw [hsnd] at he
        simp only [Option.getD_some, Option.some.injEq] at he
        exact ⟨T, he.symm⟩
    · rw [if_neg hcond] at he
      cases he

end BuildPres
